import Mathlib

set_option maxHeartbeats 1000000

/-!
Shallow embedding of the space-station inventory system (a FastAPI service
under src/app): the placement planner (services/placement.py), the retrieval
planner (services/search.py), the waste and return planner (services/waste.py),
the simulation clock (services/simulation.py) and the item-id handling of CSV
ingestion (utils/csv_handler.py).

Conventions of the embedding: the Python floats of the source carry only
integral values on the unit lattice the planner scans, so dimensions,
coordinates, masses, priorities and timestamps are embedded as `Int`
(timestamps count days); SQLAlchemy rows become records in a `List` store;
Python `None` becomes `Option`; a Python exception becomes the `Except` error
branch. Python `list.sort` is stable, embedded by the stable insertion sort
`pySort`.
-/

/-! ## Geometry (schemas Coordinates / Position) -/

structure Coordinates where
  width : Int
  depth : Int
  height : Int
deriving DecidableEq, Repr

structure Position where
  startCoordinates : Coordinates
  endCoordinates : Coordinates
deriving DecidableEq, Repr

/-! ## Stable sort, the embedding of Python list.sort / sorted -/

/-- Insert `a` into `l` before the first element `b` with `le a b`; ties keep
`a` first, matching the stability of Python sorts. -/
def insertSorted (le : α → α → Bool) (a : α) : List α → List α
  | [] => [a]
  | b :: l => if le a b then a :: b :: l else b :: insertSorted le a l

/-- Stable insertion sort: the embedding of Python list.sort(key=...), with
`le` the non-strict comparison of the sort keys. -/
def pySort (le : α → α → Bool) : List α → List α
  | [] => []
  | a :: l => insertSorted le a (pySort le l)

/-! ## Placement planner data (schemas Item / Container and service state) -/

structure Item where
  itemId : String
  name : String
  width : Int
  depth : Int
  height : Int
  mass : Int
  priority : Int
  expiryDate : Option Int
  usageLimit : Option Int
  usesRemaining : Option Int
  preferredZone : String
deriving DecidableEq, Repr

structure Container where
  id : String
  zone : String
  width : Int
  depth : Int
  height : Int
deriving DecidableEq, Repr

/-- One entry of PlacementService.container_states[container_id]. -/
structure PlacedRecord where
  itemId : String
  position : Position
deriving DecidableEq, Repr

structure ItemPlacement where
  itemId : String
  containerId : String
  position : Position
deriving DecidableEq, Repr

structure PlacementStep where
  step : Int
  action : String
  itemId : String
  fromContainer : String
  fromPosition : Position
  toContainer : String
  toPosition : Position
deriving DecidableEq, Repr

/-! ## Placement planner (services/placement.py) -/

/-- PlacementService._check_overlap: open boxes share volume unless separated
along one of the three axes. -/
def checkOverlap (pos1 pos2 : Position) : Bool :=
  !(decide (pos1.endCoordinates.width ≤ pos2.startCoordinates.width) ||
    decide (pos1.startCoordinates.width ≥ pos2.endCoordinates.width) ||
    decide (pos1.endCoordinates.depth ≤ pos2.startCoordinates.depth) ||
    decide (pos1.startCoordinates.depth ≥ pos2.endCoordinates.depth) ||
    decide (pos1.endCoordinates.height ≤ pos2.startCoordinates.height) ||
    decide (pos1.startCoordinates.height ≥ pos2.endCoordinates.height))

/-- PlacementService._is_position_valid: no overlap with any placed record. -/
def isPositionValid (position : Position) (containerState : List PlacedRecord) : Bool :=
  containerState.all fun existing => !(checkOverlap position existing.position)

/-- The anchors 0, 1, ..., enumerated by one of the while loops of
_find_position_in_container: all integers z with z + itemDim ≤ containerDim
(the caller has already checked itemDim ≤ containerDim). -/
def latticePoints (containerDim itemDim : Int) : List Int :=
  (List.range ((containerDim - itemDim).toNat + 1)).map fun n => (n : Int)

/-- PlacementService._find_position_in_container: reject an item larger than
the container, then scan anchors with height outermost, then depth, then width
innermost (the x loop is the inner while loop), returning the first anchor
whose box overlaps no placed record. -/
def findPositionInContainer (item : Item) (container : Container)
    (containerState : List PlacedRecord) : Option Position :=
  if item.width > container.width ∨ item.depth > container.depth ∨
      item.height > container.height then
    none
  else
    ((latticePoints container.height item.height).flatMap fun z =>
      (latticePoints container.depth item.depth).flatMap fun y =>
        (latticePoints container.width item.width).map fun x => (x, y, z)).findSome?
      fun a =>
        let position : Position :=
          ⟨⟨a.1, a.2.1, a.2.2⟩, ⟨a.1 + item.width, a.2.1 + item.depth, a.2.2 + item.height⟩⟩
        if isPositionValid position containerState then some position else none

/-- PlacementService.container_states.get(container_id, []). -/
def getState (states : List (String × List PlacedRecord)) (cid : String) :
    List PlacedRecord :=
  match states.lookup cid with
  | some s => s
  | none => []

/-- PlacementService._find_optimal_position: the containers are tried in their
input order; the first container admitting a position wins. The method is
defined in the source but invoked from nowhere; the live per-item pass is
`attemptPlacement` below. -/
def findOptimalPosition (item : Item) (containers : List Container)
    (states : List (String × List PlacedRecord)) : Option ItemPlacement :=
  containers.findSome? fun container =>
    (findPositionInContainer item container (getState states container.id)).map
      fun position => ⟨item.itemId, container.id, position⟩

/-- PlacementService._get_possible_rotations: the six dimension triples, the
identity first and the remaining five in lexicographic permutation order; all
other fields are copied. -/
def getPossibleRotations (item : Item) : List Item :=
  [(item.width, item.depth, item.height),
    (item.width, item.height, item.depth),
    (item.depth, item.width, item.height),
    (item.depth, item.height, item.width),
    (item.height, item.width, item.depth),
    (item.height, item.depth, item.width)].map fun d =>
    { item with width := d.1, depth := d.2.1, height := d.2.2 }

/-- PlacementService._update_container_state: append the placed record to the
entry of the placement's container (creating the entry when absent). -/
def updateContainerState (states : List (String × List PlacedRecord))
    (placement : ItemPlacement) : List (String × List PlacedRecord) :=
  match states.lookup placement.containerId with
  | some _ =>
    states.map fun e =>
      if e.1 = placement.containerId then
        (e.1, e.2 ++ [⟨placement.itemId, placement.position⟩])
      else e
  | none => states ++ [(placement.containerId, [⟨placement.itemId, placement.position⟩])]

/-- Comparison of Option expiry dates where a missing date sorts last
(datetime.max in _prepare_items). -/
def optionExpiryLt : Option Int → Option Int → Bool
  | some a, some b => decide (a < b)
  | some _, none => true
  | none, _ => false

/-- The sort key of PlacementService._prepare_items: priority descending, then
expiry date ascending with missing dates last, then volume descending. -/
def itemKeyLe (a b : Item) : Bool :=
  if a.priority ≠ b.priority then decide (b.priority < a.priority)
  else if optionExpiryLt a.expiryDate b.expiryDate then true
  else if optionExpiryLt b.expiryDate a.expiryDate then false
  else decide (b.width * b.depth * b.height ≤ a.width * a.depth * a.height)

/-- PlacementService._prepare_items on already typed items: sort by
(-priority, expiry_or_max, -volume). -/
def prepareItems (items : List Item) : List Item :=
  pySort itemKeyLe items

/-- Modelled from the spec: optimize_placement (placement.py line 35) invokes
self._attempt_placement, a method defined nowhere in the repository (as is
_prepare_containers at line 29). Section 4.B of the spec fixes the per-item
placement pass: enumerate the six rotations (identity first, then
lexicographic permutation order - the order of the source's
_get_possible_rotations); partition the containers into preferred (zone equal
to item.preferred_zone) and other; for the preferred set, then the other set,
iterate the containers in their input order, and per container take the first
rotation yielding a non-empty first free pose (the source's
_find_position_in_container). -/
def attemptPlacement (item : Item) (containers : List Container)
    (states : List (String × List PlacedRecord)) : Option ItemPlacement :=
  ((containers.filter fun c => c.zone == item.preferredZone) ++
      (containers.filter fun c => !(c.zone == item.preferredZone))).findSome?
    fun container =>
      ((getPossibleRotations item).findSome? fun rotated =>
          findPositionInContainer rotated container (getState states container.id)).map
        fun position => ⟨item.itemId, container.id, position⟩

/-- Modelled from the spec: the interface of the rearrangement pass
_optimize_rearrangement (placement.py 85-134), whose strategy methods
_find_compact_position, _stack_similar_items and _move_low_priority_items are
defined nowhere in the repository. Given the item, the containers and the
spatial state it either fails - the item stays unplaced and the state is
untouched, the roll-back semantics of spec section 4.B - or yields the
placement found, the move steps taken and the mutated state. The claim
theorems quantify over this parameter, so they hold for every implementation
of the pass, in particular for the three-strategy contract of section 4.B. -/
def RearrangePass : Type :=
  Item → List Container → List (String × List PlacedRecord) →
    Option (ItemPlacement × List PlacementStep × List (String × List PlacedRecord))

/-- The per-item loop of PlacementService.optimize_placement (lines 34-48):
direct placement first; on failure the rearrangement pass runs and, when it
succeeds, its steps extend the rearrangement list, its placement is recorded
and the container state is updated; otherwise the item is left unplaced and
planning continues with the next item. -/
def placeLoop (rearrange : RearrangePass) (containers : List Container) :
    List Item → List (String × List PlacedRecord) → List ItemPlacement →
    List PlacementStep → List ItemPlacement × List PlacementStep
  | [], _, placements, rearrangements => (placements, rearrangements)
  | item :: rest, states, placements, rearrangements =>
    match attemptPlacement item containers states with
    | some placement =>
      placeLoop rearrange containers rest (updateContainerState states placement)
        (placements ++ [placement]) rearrangements
    | none =>
      match rearrange item containers states with
      | some (placement, steps, states1) =>
        placeLoop rearrange containers rest (updateContainerState states1 placement)
          (placements ++ [placement]) (rearrangements ++ steps)
      | none => placeLoop rearrange containers rest states placements rearrangements

/-- PlacementService.optimize_placement: sort the items, then place each in
turn, threading the container states; `rearrange` stands for the absent
rearrangement pass. -/
def optimizePlacement (rearrange : RearrangePass) (items : List Item)
    (containers : List Container) : List ItemPlacement × List PlacementStep :=
  placeLoop rearrange containers (prepareItems items) [] [] []

/-- The unplaced-item computation of the /api/placement route (main.py lines
107-112): the input items whose id no placement carries. -/
def computeUnplaced (items : List Item) (placements : List ItemPlacement) :
    List String :=
  (items.filter fun item => !((placements.map ItemPlacement.itemId).contains item.itemId)).map
    Item.itemId

/-! ## Concrete fixtures for the placement claims -/

def itemI1 : Item := ⟨"i1", "Item One", 2, 2, 2, 1, 50, none, none, none, "Lab"⟩

def containerCA : Container := ⟨"cA", "Lab", 10, 10, 10⟩

def itemI1Storage : Item := ⟨"i1", "Item One", 2, 2, 2, 1, 50, none, none, none, "Storage"⟩

def containerCALab : Container := ⟨"cA", "Lab", 5, 5, 5⟩

def containerCBStorage : Container := ⟨"cB", "Storage", 5, 5, 5⟩


/-! ## Database rows (models Item) and the retrieval planner (services/search.py) -/

/-- A row of the items table (models Item): identifier, geometry, usage and
waste state, optional container assignment and position. -/
structure DbItem where
  itemId : String
  name : String
  width : Int
  depth : Int
  height : Int
  mass : Int
  priority : Int
  expiryDate : Option Int
  usageLimit : Option Int
  usesRemaining : Option Int
  preferredZone : String
  containerId : Option String
  position : Option Position
  isWaste : Bool
deriving DecidableEq, Repr

structure RetrievalStep where
  step : Int
  action : String
  itemId : String
  itemName : String
deriving DecidableEq, Repr

/-- SearchService._check_perpendicular_overlap: the (width, height) projections
of the two boxes share area. -/
def checkPerpendicularOverlap (targetStart targetEnd itemStart itemEnd : Coordinates) : Bool :=
  !(decide (itemEnd.width ≤ targetStart.width) ||
    decide (itemStart.width ≥ targetEnd.width) ||
    decide (itemEnd.height ≤ targetStart.height) ||
    decide (itemStart.height ≥ targetEnd.height))

/-- The depth component of the sort key position["startCoordinates"]["depth"];
every sorted element has a position, so the default is never read. -/
def blockerDepth (i : DbItem) : Int :=
  ((i.position.getD ⟨⟨0, 0, 0⟩, ⟨0, 0, 0⟩⟩).startCoordinates).depth

/-- The sort key (start depth, priority) of _find_blocking_items, as a
non-strict lexicographic comparison. -/
def depthPriorityLe (a b : DbItem) : Bool :=
  if blockerDepth a < blockerDepth b then true
  else if blockerDepth b < blockerDepth a then false
  else decide (a.priority ≤ b.priority)

/-- SearchService._find_blocking_items: items of the same container, not the
target, not waste, positioned strictly closer to the opening with overlapping
(width, height) projection; sorted by (start depth, priority). An unset or
empty container id, or an unset position, of the target yields no blockers. -/
def findBlockingItems (db : List DbItem) (target : DbItem) : List DbItem :=
  match target.containerId, target.position with
  | some cid, some targetPos =>
    if cid = "" then []
    else
      let containerItems := db.filter fun i =>
        i.containerId == target.containerId && !(i.itemId == target.itemId) &&
          i.isWaste == false
      let blocking := containerItems.filter fun i =>
        match i.position with
        | none => false
        | some p =>
          decide (p.startCoordinates.depth < targetPos.startCoordinates.depth) &&
            checkPerpendicularOverlap targetPos.startCoordinates targetPos.endCoordinates
              p.startCoordinates p.endCoordinates
      pySort depthPriorityLe blocking
  | _, _ => []

/-- The re-sort of _calculate_retrieval_steps (search.py line 95): by priority
alone. -/
def priorityLe (a b : DbItem) : Bool :=
  decide (a.priority ≤ b.priority)

/-- The step_counter threading of _calculate_retrieval_steps: number the
(action, item id, item name) triples from `counter` upward. -/
def numberSteps (counter : Int) : List (String × String × String) → List RetrievalStep
  | [] => []
  | entry :: rest => ⟨counter, entry.1, entry.2.1, entry.2.2⟩ :: numberSteps (counter + 1) rest

/-- SearchService._calculate_retrieval_steps: no steps without a container and
position; otherwise remove steps for the blockers re-sorted by priority, one
retrieve step for the target, and place steps for the blockers in reverse. -/
def calculateRetrievalSteps (db : List DbItem) (target : DbItem) : List RetrievalStep :=
  match target.containerId, target.position with
  | some cid, some _ =>
    if cid = "" then []
    else
      let blocking := pySort priorityLe (findBlockingItems db target)
      numberSteps 1
        ((blocking.map fun b => ("remove", b.itemId, b.name)) ++
          [("retrieve", target.itemId, target.name)] ++
          (blocking.reverse.map fun b => ("place", b.itemId, b.name)))
  | _, _ => []

/-- SearchService.log_retrieval, the item mutation: with a usage limit the
remaining uses drop to max(0, old - 1); at zero the item is flagged waste. A
row with a usage limit but no remaining-uses value would raise a TypeError on
the subtraction. -/
def logRetrievalItem (item : DbItem) : Except String DbItem :=
  match item.usageLimit with
  | none => .ok item
  | some _ =>
    match item.usesRemaining with
    | none => .error "TypeError: int minus NoneType"
    | some oldUses =>
      let newUses := max 0 (oldUses - 1)
      let item1 := { item with usesRemaining := some newUses }
      .ok (if newUses = 0 then { item1 with isWaste := true } else item1)

/-- The claim-side projection predicate: the closed rectangles
[s.width, e.width] x [s.height, e.height] of the two positions intersect with
non-empty interior. -/
def projOverlapInteriorNonempty (p q : Position) : Prop :=
  max p.startCoordinates.width q.startCoordinates.width <
      min p.endCoordinates.width q.endCoordinates.width ∧
    max p.startCoordinates.height q.startCoordinates.height <
      min p.endCoordinates.height q.endCoordinates.height

/-! ## Concrete fixtures for the retrieval claims -/

def targetT : DbItem :=
  ⟨"T", "Target", 2, 2, 2, 1, 50, none, none, none, "Lab", some "cA",
    some ⟨⟨0, 2, 0⟩, ⟨2, 4, 2⟩⟩, false⟩

def blockerB1 : DbItem :=
  ⟨"B1", "BlockerOne", 2, 1, 2, 1, 5, none, none, none, "Lab", some "cA",
    some ⟨⟨0, 0, 0⟩, ⟨2, 1, 2⟩⟩, false⟩

def blockerB2 : DbItem :=
  ⟨"B2", "BlockerTwo", 2, 1, 2, 1, 1, none, none, none, "Lab", some "cA",
    some ⟨⟨0, 1, 0⟩, ⟨2, 2, 2⟩⟩, false⟩

def searchDb : List DbItem := [targetT, blockerB1, blockerB2]

def usageItem : DbItem :=
  ⟨"u1", "UsageItem", 1, 1, 1, 1, 10, none, some 3, some 1, "Lab", none, none, false⟩

/-! ## Simulation clock (services/simulation.py) -/

structure SimulationRequest where
  numOfDays : Option Int
  toTimestamp : Option Int
  itemsToBeUsedPerDay : List (Option String)
deriving DecidableEq, Repr

/-- The two exceptions simulate_time can raise: the ValueError of a missing
time mode, and the TypeError of int minus None in to_timestamp mode. -/
inductive SimError where
  | invalidInput : SimError
  | typeError : SimError
deriving DecidableEq, Repr

structure UsedEntry where
  itemId : String
  name : String
  remainingUses : Int
  usesConsumed : Int
deriving DecidableEq, Repr

structure DepletedEntry where
  itemId : String
  name : String
  depletedAt : Int
deriving DecidableEq, Repr

structure ExpiredEntry where
  itemId : String
  name : String
  expiryDate : Int
deriving DecidableEq, Repr

structure SimChanges where
  itemsUsedToday : List UsedEntry
  itemsDepletedToday : List DepletedEntry
  itemsExpiredToday : List ExpiredEntry
deriving DecidableEq, Repr

/-- A log row reduced to the fields the claims read: action type and item. -/
structure LogEntry where
  actionType : String
  itemId : String
deriving DecidableEq, Repr

structure SimulationOutcome where
  newDate : Int
  changes : SimChanges
  store : List DbItem
  logs : List LogEntry
deriving DecidableEq, Repr

/-- Python truthiness of an optional integer: None and 0 are falsy. -/
def pyTruthyInt : Option Int → Bool
  | none => false
  | some n => !(n = 0 : Bool)

/-- Python truthiness of an optional string: None and the empty string are
falsy. -/
def pyTruthyStr : Option String → Bool
  | none => false
  | some s => !(s = "" : Bool)

/-- Replace the row with the given primary key (the ORM mutates the queried
row in place). -/
def updateItem (store : List DbItem) (newItem : DbItem) : List DbItem :=
  store.map fun i => if i.itemId = newItem.itemId then newItem else i

/-- The per-usage-record loop of simulate_time: skip records without an item
id, unknown items and waste items; for an item with both usage_limit and
uses_remaining take total_uses = request.num_of_days (a TypeError when that is
None), set uses_remaining to max(0, old - total_uses), record the usage, flag
the item waste with a disposal log entry when it just reached 0, and append
one retrieval log entry per consumed day. -/
def simulateUsageLoop (numOfDays : Option Int) (currentDate : Int) :
    List (Option String) → List DbItem → List UsedEntry → List DepletedEntry →
    List LogEntry →
    Except SimError (List DbItem × List UsedEntry × List DepletedEntry × List LogEntry)
  | [], store, used, depleted, logs => .ok (store, used, depleted, logs)
  | r :: rest, store, used, depleted, logs =>
    if !(pyTruthyStr r) then
      simulateUsageLoop numOfDays currentDate rest store used depleted logs
    else
      match store.find? fun i => some i.itemId == r with
      | none => simulateUsageLoop numOfDays currentDate rest store used depleted logs
      | some item =>
        if item.isWaste then
          simulateUsageLoop numOfDays currentDate rest store used depleted logs
        else
          match item.usageLimit, item.usesRemaining with
          | some _, some oldUses =>
            match numOfDays with
            | none => .error .typeError
            | some totalUses =>
              let newUses := max 0 (oldUses - totalUses)
              let consumed := min totalUses oldUses
              let depletedNow := newUses = 0 ∧ oldUses > 0
              let item2 :=
                { item with
                  usesRemaining := some newUses
                  isWaste := item.isWaste ∨ depletedNow }
              let newDepleted :=
                if depletedNow then
                  depleted ++ [⟨item.itemId, item.name, currentDate + oldUses⟩]
                else depleted
              let newLogs :=
                (if depletedNow then logs ++ [⟨"disposal", item.itemId⟩] else logs) ++
                  List.replicate consumed.toNat (⟨"retrieval", item.itemId⟩ : LogEntry)
              simulateUsageLoop numOfDays currentDate rest (updateItem store item2)
                (used ++ [⟨item.itemId, item.name, newUses, consumed⟩]) newDepleted newLogs
          | _, _ => simulateUsageLoop numOfDays currentDate rest store used depleted logs

/-- An item the expiry scan of simulate_time selects: expiry set, not after
target_date, and not yet waste (an unset expiry never satisfies the SQL
comparison). -/
def expiresBy (targetDate : Int) (i : DbItem) : Bool :=
  (match i.expiryDate with
    | some e => decide (e ≤ targetDate)
    | none => false) &&
    !i.isWaste

/-- The expiry pass of simulate_time: flag every selected item waste, record
it among itemsExpiredToday and append a disposal log entry. -/
def expiryPass (targetDate : Int) (store : List DbItem) :
    List DbItem × List ExpiredEntry × List LogEntry :=
  let expired := store.filter (expiresBy targetDate)
  (store.map fun i => if expiresBy targetDate i then { i with isWaste := true } else i,
    expired.map fun i => ⟨i.itemId, i.name, i.expiryDate.getD 0⟩,
    expired.map fun i => (⟨"disposal", i.itemId⟩ : LogEntry))

/-- SimulationService.simulate_time: pick the target date (num_of_days wins
when truthy, else to_timestamp, else ValueError), run the usage loop, then the
expiry pass. -/
def simulateTime (currentDate : Int) (store : List DbItem)
    (request : SimulationRequest) : Except SimError SimulationOutcome :=
  let run : Int → Except SimError SimulationOutcome := fun targetDate =>
    match simulateUsageLoop request.numOfDays currentDate request.itemsToBeUsedPerDay
        store [] [] [] with
    | .error e => .error e
    | .ok (store1, used, depleted, logs1) =>
      let (store2, expired, logs2) := expiryPass targetDate store1
      .ok ⟨targetDate, ⟨used, depleted, expired⟩, store2, logs1 ++ logs2⟩
  if pyTruthyInt request.numOfDays then
    match request.numOfDays with
    | some n => run (currentDate + n)
    | none => .error .invalidInput
  else
    match request.toTimestamp with
    | some ts => run ts
    | none => .error .invalidInput

/-! ## Waste management (services/waste.py) -/

structure WasteItem where
  itemId : String
  name : String
  reason : String
  containerId : String
  position : Position
deriving DecidableEq, Repr

/-- The filter of identify_waste_items: (expiry set and passed, or usage limit
set and remaining uses at most 0) and not already waste; an unset
uses_remaining never satisfies the SQL comparison. -/
def wasteCondition (now : Int) (i : DbItem) : Bool :=
  ((!(i.expiryDate = none : Bool) &&
      (match i.expiryDate with
        | some e => decide (e ≤ now)
        | none => false)) ||
    (!(i.usageLimit = none : Bool) &&
      (match i.usesRemaining with
        | some u => decide (u ≤ 0)
        | none => false))) &&
    i.isWaste = false

/-- The reason reported by identify_waste_items (waste.py line 41): Expired
when the expiry is set and passed, Out of Uses otherwise. -/
def wasteReason (now : Int) (i : DbItem) : String :=
  match i.expiryDate with
  | some e => if e ≤ now then "Expired" else "Out of Uses"
  | none => "Out of Uses"

/-- item.container_id or "unknown": Python `or` replaces None and the empty
string. -/
def containerOrUnknown (i : DbItem) : String :=
  match i.containerId with
  | some s => if s = "" then "unknown" else s
  | none => "unknown"

/-- WasteManagementService.identify_waste_items: report every item matching
the waste condition and flag it waste in the store. -/
def identifyWasteItems (now : Int) (store : List DbItem) :
    List WasteItem × List DbItem :=
  ((store.filter (wasteCondition now)).map fun i =>
      ⟨i.itemId, i.name, wasteReason now i, containerOrUnknown i,
        i.position.getD ⟨⟨0, 0, 0⟩, ⟨0, 0, 0⟩⟩⟩,
    store.map fun i => if wasteCondition now i then { i with isWaste := true } else i)

structure ReturnPlanRequest where
  undockingContainerId : String
  undockingDate : Int
  maxWeight : Int
deriving DecidableEq, Repr

structure ReturnPlanEntry where
  step : Int
  itemId : String
  itemName : String
  fromContainer : Option String
  toContainer : String
deriving DecidableEq, Repr

structure ManifestEntry where
  itemId : String
  name : String
  reason : String
deriving DecidableEq, Repr

structure ReturnManifest where
  undockingContainerId : String
  undockingDate : Int
  returnItems : List ManifestEntry
  totalVolume : Int
  totalWeight : Int
deriving DecidableEq, Repr

/-- The height component of the waste sort key. -/
def wasteHeight (i : DbItem) : Int :=
  ((i.position.getD ⟨⟨0, 0, 0⟩, ⟨0, 0, 0⟩⟩).startCoordinates).height

/-- The sort key (start depth, start height) of plan_waste_return, as a
non-strict lexicographic comparison. -/
def wasteSortLe (a b : DbItem) : Bool :=
  if blockerDepth a < blockerDepth b then true
  else if blockerDepth b < blockerDepth a then false
  else decide (wasteHeight a ≤ wasteHeight b)

/-- The greedy loop of plan_waste_return over the sorted waste items: break at
the first item whose mass would push the running total over the cap; the
manifest reason compares item.expiry_date with the current time, a TypeError
when the expiry is unset. -/
def wasteReturnLoop (now : Int) (req : ReturnPlanRequest) :
    List DbItem → Int → Int → Int → List ReturnPlanEntry → List RetrievalStep →
    List ManifestEntry →
    Except String (List ReturnPlanEntry × List RetrievalStep × ReturnManifest)
  | [], totalVolume, totalWeight, _, plan, steps, manifestItems =>
    .ok (plan, steps,
      ⟨req.undockingContainerId, req.undockingDate, manifestItems, totalVolume, totalWeight⟩)
  | item :: rest, totalVolume, totalWeight, counter, plan, steps, manifestItems =>
    if totalWeight + item.mass > req.maxWeight then
      .ok (plan, steps,
        ⟨req.undockingContainerId, req.undockingDate, manifestItems, totalVolume, totalWeight⟩)
    else
      match item.expiryDate with
      | none => .error "TypeError: NoneType not comparable with datetime"
      | some e =>
        let reason := if e ≤ now then "Expired" else "Out of Uses"
        wasteReturnLoop now req rest (totalVolume + item.width * item.depth * item.height)
          (totalWeight + item.mass) (counter + 1)
          (plan ++ [⟨counter, item.itemId, item.name, item.containerId,
            req.undockingContainerId⟩])
          (steps ++ [⟨counter, "retrieve", item.itemId, item.name⟩])
          (manifestItems ++ [⟨item.itemId, item.name, reason⟩])

/-- WasteManagementService.plan_waste_return: sort the waste items by (start
depth, start height) - Python evaluates that key for every waste item, so an
item without a position raises a TypeError - then greedily accumulate under
the weight cap. -/
def planWasteReturn (now : Int) (store : List DbItem) (req : ReturnPlanRequest) :
    Except String (List ReturnPlanEntry × List RetrievalStep × ReturnManifest) :=
  let wasteItems := store.filter fun i => i.isWaste
  if wasteItems.any fun i => i.position.isNone then
    .error "TypeError: NoneType is not subscriptable"
  else
    wasteReturnLoop now req (pySort wasteSortLe wasteItems) 0 0 1 [] [] []

/-! ## Item CSV ingestion (utils/csv_handler.py) -/

/-- The whitespace str.strip removes. -/
def pyIsSpace (c : Char) : Bool :=
  c = ' ' || c = '\t' || c = '\n' || c = '\r' || c = '\x0b' || c = '\x0c'

/-- Python str.strip(): drop whitespace from both ends. -/
def pyStrip (s : String) : String :=
  ⟨((s.data.dropWhile pyIsSpace).reverse.dropWhile pyIsSpace).reverse⟩

/-- Python str.startswith with a one-character prefix. -/
def pyStartsWithChar (s : String) (c : Char) : Bool :=
  match s.data with
  | [] => false
  | d :: _ => d = c

/-- Python str.zfill: left-fill with ASCII zeros up to the width, except that
a leading sign character keeps its place and the zeros are inserted after
it. -/
def pyZfill (s : String) (width : Nat) : String :=
  if width ≤ s.data.length then s
  else
    match s.data with
    | [] => ⟨List.replicate width '0'⟩
    | c :: rest =>
      if c = '+' || c = '-' then
        ⟨c :: (List.replicate (width - s.data.length) '0' ++ rest)⟩
      else ⟨List.replicate (width - s.data.length) '0' ++ s.data⟩

/-- The Item ID handling of CSVHandler.import_items (csv_handler.py lines
42-45): strip the cell, and zfill to 3 characters unless it already starts
with a zero. -/
def importItemId (raw : String) : String :=
  let t := pyStrip raw
  if pyStartsWithChar t '0' then t else pyZfill t 3

/-- Claim-side definition, following the words of the claim: the string
left-padded with zeros to at least 3 characters. -/
def specLeftPad3 (t : String) : String :=
  ⟨List.replicate (3 - t.data.length) '0' ++ t.data⟩

/-! ## Concrete fixtures for the simulation, waste and ingestion claims -/

def simUsageItem : DbItem :=
  ⟨"s1", "SimItem", 1, 1, 1, 1, 10, none, some 5, some 5, "Lab", none, none, false⟩

def wasteNoExpiry : DbItem :=
  ⟨"w0", "OutOfUsesWaste", 1, 1, 1, 2, 10, none, some 2, some 0, "Lab", some "cA",
    some ⟨⟨0, 0, 0⟩, ⟨1, 1, 1⟩⟩, true⟩

def wasteW1 : DbItem :=
  ⟨"w1", "WasteOne", 1, 1, 1, 5, 10, some 10, none, none, "Lab", some "cA",
    some ⟨⟨0, 0, 0⟩, ⟨1, 1, 1⟩⟩, true⟩

def wasteW2 : DbItem :=
  ⟨"w2", "WasteTwo", 1, 1, 1, 4, 10, some 10, none, none, "Lab", some "cA",
    some ⟨⟨0, 1, 0⟩, ⟨1, 2, 1⟩⟩, true⟩

def wasteW3 : DbItem :=
  ⟨"w3", "WasteThree", 1, 1, 1, 2, 10, some 10, none, none, "Lab", some "cA",
    some ⟨⟨0, 2, 0⟩, ⟨1, 3, 1⟩⟩, true⟩

def returnRequest : ReturnPlanRequest := ⟨"undock1", 50, 8⟩


/-! ## Properties of the stable sort -/

theorem mem_insertSorted (le : α → α → Bool) (a x : α) :
    ∀ l : List α, x ∈ insertSorted le a l ↔ x = a ∨ x ∈ l
  | [] => by simp [insertSorted]
  | b :: t => by
    simp only [insertSorted]
    split
    · simp [List.mem_cons]
    · simp only [List.mem_cons, mem_insertSorted le a x t]
      tauto

theorem insertSorted_perm (le : α → α → Bool) (a : α) :
    ∀ l : List α, (insertSorted le a l).Perm (a :: l)
  | [] => List.Perm.refl _
  | b :: t => by
    simp only [insertSorted]
    split
    · exact List.Perm.refl _
    · exact ((insertSorted_perm le a t).cons b).trans (List.Perm.swap a b t)

theorem pySort_perm (le : α → α → Bool) :
    ∀ l : List α, (pySort le l).Perm l
  | [] => List.Perm.refl _
  | a :: t => by
    simpa [pySort] using (insertSorted_perm le a (pySort le t)).trans ((pySort_perm le t).cons a)

theorem mem_pySort (le : α → α → Bool) (x : α) (l : List α) :
    x ∈ pySort le l ↔ x ∈ l :=
  (pySort_perm le l).mem_iff

/-- Inserting into a list that is sorted for `le` and whose ties respect `T`
keeps both, provided every element of the list relates to the inserted one by
`T` (the inserted element stood first in the original order). -/
theorem insertSorted_pairwise (le : α → α → Bool) (T : α → α → Prop)
    (htot : ∀ a b, le a b = true ∨ le b a = true)
    (htrans : ∀ a b c, le a b = true → le b c = true → le a c = true) (a : α) :
    ∀ l : List α,
      l.Pairwise (fun x y => le x y = true ∧ (le y x = true → T x y)) →
      (∀ x ∈ l, T a x) →
      (insertSorted le a l).Pairwise (fun x y => le x y = true ∧ (le y x = true → T x y))
  | [], _, _ => by simp [insertSorted]
  | b :: t, hp, hT => by
    have hp2 := List.pairwise_cons.mp hp
    simp only [insertSorted]
    by_cases hab : le a b = true
    · rw [if_pos hab]
      refine List.Pairwise.cons ?_ hp
      intro y hy
      rcases List.mem_cons.mp hy with heq | hyt
      · subst heq
        exact ⟨hab, fun _ => hT _ (List.mem_cons_self _ _)⟩
      · exact ⟨htrans a b y hab (hp2.1 y hyt).1, fun _ => hT y (List.mem_cons_of_mem b hyt)⟩
    · rw [if_neg hab]
      have hba : le b a = true := (htot a b).resolve_left hab
      refine List.Pairwise.cons ?_
        (insertSorted_pairwise le T htot htrans a t hp2.2
          fun x hx => hT x (List.mem_cons_of_mem b hx))
      intro y hy
      rcases (mem_insertSorted le a y t).mp hy with heq | hyt
      · subst heq
        exact ⟨hba, fun h => absurd h hab⟩
      · exact hp2.1 y hyt

/-- Stability of the sort: sorting a list whose order already respects `T`
yields a list sorted for `le` in which ties still respect `T`. -/
theorem pySort_pairwise_stable (le : α → α → Bool) (T : α → α → Prop)
    (htot : ∀ a b, le a b = true ∨ le b a = true)
    (htrans : ∀ a b c, le a b = true → le b c = true → le a c = true) :
    ∀ l : List α, l.Pairwise T →
      (pySort le l).Pairwise (fun x y => le x y = true ∧ (le y x = true → T x y))
  | [], _ => by simp [pySort]
  | a :: t, hp => by
    have hp2 := List.pairwise_cons.mp hp
    simp only [pySort]
    exact insertSorted_pairwise le T htot htrans a (pySort le t)
      (pySort_pairwise_stable le T htot htrans t hp2.2)
      fun x hx => hp2.1 x ((mem_pySort le x t).mp hx)

theorem pairwise_trivial (l : List α) : l.Pairwise fun _ _ => True := by
  induction l <;> simp [*]

theorem numberSteps_map_step :
    ∀ (k : Int) (l : List (String × String × String)),
      (numberSteps k l).map RetrievalStep.step =
        (List.range l.length).map fun (n : Nat) => k + (n : Int)
  | _, [] => by simp [numberSteps]
  | k, e :: rest => by
    simp only [numberSteps, List.map_cons, List.length_cons, List.range_succ_eq_map,
      List.map_map, numberSteps_map_step (k + 1) rest, List.cons.injEq]
    refine ⟨by norm_num, List.map_congr_left fun n _ => ?_⟩
    simp only [Function.comp_apply]
    push_cast
    ring

/-! ## Comparator facts for the retrieval sort keys -/

theorem depthPriorityLe_total (a b : DbItem) :
    depthPriorityLe a b = true ∨ depthPriorityLe b a = true := by
  simp only [depthPriorityLe]
  split_ifs <;> simp_all <;> omega

theorem depthPriorityLe_trans (a b c : DbItem)
    (h1 : depthPriorityLe a b = true) (h2 : depthPriorityLe b c = true) :
    depthPriorityLe a c = true := by
  simp only [depthPriorityLe] at h1 h2 ⊢
  split_ifs at h1 h2 ⊢ <;> simp_all <;> omega

theorem priorityLe_total (a b : DbItem) :
    priorityLe a b = true ∨ priorityLe b a = true := by
  simp only [priorityLe, decide_eq_true_eq]
  omega

theorem priorityLe_trans (a b c : DbItem)
    (h1 : priorityLe a b = true) (h2 : priorityLe b c = true) :
    priorityLe a c = true := by
  simp only [priorityLe, decide_eq_true_eq] at h1 h2 ⊢
  omega

/-! ## Claim theorems -/

/-- First-hit behaviour of findSome? over a decomposed list: when every
element before `c` yields none and `c` yields a value, the search returns that
value. -/
theorem findSome?_first_hit (f : α → Option β) (c : α) (b : β) :
    ∀ (pre post : List α), (∀ a ∈ pre, f a = none) → f c = some b →
      (pre ++ c :: post).findSome? f = some b
  | [], post, _, hc => by simp [List.findSome?_cons, hc]
  | d :: t, post, hpre, hc => by
    have hd := hpre d (List.mem_cons_self d t)
    simpa only [List.cons_append, List.findSome?_cons, hd] using
      findSome?_first_hit f c b t post (fun a ha => hpre a (List.mem_cons_of_mem d ha)) hc

/-- A member yielding a value makes findSome? return some value. -/
theorem findSome?_eq_some_of_mem (f : α → Option β) :
    ∀ (l : List α) (a : α) (b : β), a ∈ l → f a = some b →
      ∃ v, l.findSome? f = some v
  | [], a, _, ha, _ => absurd ha (List.not_mem_nil a)
  | d :: t, a, b, ha, hfa => by
    rcases hfd : f d with _ | v
    · rcases List.mem_cons.mp ha with heq | hat
      · subst heq
        rw [hfd] at hfa
        exact absurd hfa (by simp)
      · obtain ⟨v, hv⟩ := findSome?_eq_some_of_mem f t a b hat hfa
        exact ⟨v, by simp [List.findSome?_cons, hfd, hv]⟩
    · exact ⟨v, by simp [List.findSome?_cons, hfd]⟩

/-- The value findSome? returns comes from some member of the list. -/
theorem exists_of_findSome?_some (f : α → Option β) :
    ∀ (l : List α) (b : β), l.findSome? f = some b → ∃ a, a ∈ l ∧ f a = some b
  | [], b, h => by simp [List.findSome?] at h
  | d :: t, b, h => by
    rcases hfd : f d with _ | v
    · rw [List.findSome?_cons, hfd] at h
      obtain ⟨a, ha, hfa⟩ := exists_of_findSome?_some f t b h
      exact ⟨a, List.mem_cons_of_mem d ha, hfa⟩
    · rw [List.findSome?_cons, hfd] at h
      exact ⟨d, List.mem_cons_self d t, hfd.trans h⟩

/-- A hit in the front part of an appended list decides the whole search. -/
theorem findSome?_append_some (f : α → Option β) (b : β) :
    ∀ (l1 l2 : List α), l1.findSome? f = some b → (l1 ++ l2).findSome? f = some b
  | [], _, h => by simp [List.findSome?] at h
  | d :: t, l2, h => by
    rcases hfd : f d with _ | v
    · rw [List.findSome?_cons, hfd] at h
      simpa only [List.cons_append, List.findSome?_cons, hfd] using
        findSome?_append_some f b t l2 h
    · rw [List.findSome?_cons, hfd] at h
      simp only [List.cons_append, List.findSome?_cons, hfd]
      exact h

/-- C1: a PlaceBatch call with a single 2x2x2 item (priority 50, preferred
zone Lab) and a single empty 10x10x10 Lab container cA returns exactly one
assignment, placing the item in cA at pose ((0,0,0),(2,2,2)), with no
rearrangement steps, and the item is not reported as unplaced. Direct
placement succeeds, so the statement holds for every implementation of the
absent rearrangement pass. -/
theorem c1_single_item_trivial_fit (rearrange : RearrangePass) :
    optimizePlacement rearrange [itemI1] [containerCA] =
      ([⟨"i1", "cA", ⟨⟨0, 0, 0⟩, ⟨2, 2, 2⟩⟩⟩], []) ∧
    computeUnplaced [itemI1] [⟨"i1", "cA", ⟨⟨0, 0, 0⟩, ⟨2, 2, 2⟩⟩⟩] = [] :=
  ⟨rfl, rfl⟩

/-- C2: the per-item placement pass searches every container whose zone
equals the item's preferred zone, in their input order, before any other
container: whenever some preferred-zone container admits a free pose for some
rotation the chosen container is a preferred-zone one; the first container of
the preferred-then-other order admitting a pose wins; and in the two-container
example the item is assigned to cB. Holds for every implementation of the
absent rearrangement pass. -/
theorem c2_preferred_zone_first (rearrange : RearrangePass) :
    (∀ (item : Item) (containers : List Container)
        (states : List (String × List PlacedRecord)) (c : Container)
        (position : Position),
      c ∈ containers → c.zone = item.preferredZone →
      ((getPossibleRotations item).findSome? fun rotated =>
        findPositionInContainer rotated c (getState states c.id)) = some position →
      ∃ (chosen : Container) (pos : Position), chosen ∈ containers ∧
        chosen.zone = item.preferredZone ∧
        attemptPlacement item containers states = some ⟨item.itemId, chosen.id, pos⟩) ∧
    (∀ (item : Item) (containers : List Container)
        (states : List (String × List PlacedRecord)) (pre post : List Container)
        (c : Container) (position : Position),
      (containers.filter fun x => x.zone == item.preferredZone) ++
          (containers.filter fun x => !(x.zone == item.preferredZone)) =
        pre ++ c :: post →
      (∀ cp ∈ pre, ((getPossibleRotations item).findSome? fun rotated =>
        findPositionInContainer rotated cp (getState states cp.id)) = none) →
      ((getPossibleRotations item).findSome? fun rotated =>
        findPositionInContainer rotated c (getState states c.id)) = some position →
      attemptPlacement item containers states = some ⟨item.itemId, c.id, position⟩) ∧
    optimizePlacement rearrange [itemI1Storage] [containerCALab, containerCBStorage] =
      ([⟨"i1", "cB", ⟨⟨0, 0, 0⟩, ⟨2, 2, 2⟩⟩⟩], []) := by
  refine ⟨?_, ?_, rfl⟩
  · intro item containers states c position hc hzone hpos
    have hcpref : c ∈ containers.filter fun x => x.zone == item.preferredZone :=
      List.mem_filter.mpr ⟨hc, by simp [hzone]⟩
    obtain ⟨pl, hpl⟩ := findSome?_eq_some_of_mem
      (fun container =>
        ((getPossibleRotations item).findSome? fun rotated =>
          findPositionInContainer rotated container (getState states container.id)).map
          fun pos => (⟨item.itemId, container.id, pos⟩ : ItemPlacement))
      (containers.filter fun x => x.zone == item.preferredZone) c
      ⟨item.itemId, c.id, position⟩ hcpref (by simp [hpos])
    obtain ⟨chosen, hmem, hval⟩ := exists_of_findSome?_some _ _ _ hpl
    obtain ⟨pos, hrot, hmk⟩ := Option.map_eq_some'.mp hval
    refine ⟨chosen, pos, (List.mem_filter.mp hmem).1, ?_, ?_⟩
    · have hf := (List.mem_filter.mp hmem).2
      simpa using hf
    · simp only [attemptPlacement]
      rw [findSome?_append_some _ pl _ _ hpl, ← hmk]
  · intro item containers states pre post c position hsplit hpre hpos
    simp only [attemptPlacement]
    rw [hsplit]
    exact findSome?_first_hit _ c _ pre post
      (fun a ha => by simp [hpre a ha]) (by simp [hpos])

theorem c2_preferred_zone_first_witness :
    ∃ (chosen : Container) (pos : Position),
      chosen ∈ [containerCALab, containerCBStorage] ∧
      chosen.zone = itemI1Storage.preferredZone ∧
      attemptPlacement itemI1Storage [containerCALab, containerCBStorage] [] =
        some ⟨"i1", chosen.id, pos⟩ :=
  (c2_preferred_zone_first fun _ _ _ => none).1 itemI1Storage
    [containerCALab, containerCBStorage] [] containerCBStorage
    ⟨⟨0, 0, 0⟩, ⟨2, 2, 2⟩⟩ (by decide) rfl rfl

/-- Claim-side well-formedness of a pose in the projection plane: start
strictly below end in width and height (the Pose invariant of the data
model). -/
def nondegenerateWH (p : Position) : Prop :=
  p.startCoordinates.width < p.endCoordinates.width ∧
    p.startCoordinates.height < p.endCoordinates.height

theorem checkPerpendicularOverlap_iff (tp bp : Position)
    (ht : nondegenerateWH tp) (hb : nondegenerateWH bp) :
    checkPerpendicularOverlap tp.startCoordinates tp.endCoordinates
        bp.startCoordinates bp.endCoordinates = true ↔
      projOverlapInteriorNonempty bp tp := by
  obtain ⟨ht1, ht2⟩ := ht
  obtain ⟨hb1, hb2⟩ := hb
  simp only [checkPerpendicularOverlap, projOverlapInteriorNonempty, Bool.not_eq_true',
    Bool.or_eq_false_iff, decide_eq_false_iff_not, not_le, lt_min_iff, max_lt_iff]
  omega

/-- C4: an item B blocks target T exactly when B is a stored item of the same
container, is not T, is not waste, has a position starting strictly closer to
the opening than T, and the closed (width, height) rectangles of the two
projections intersect with non-empty interior; in particular no waste item is
ever a blocker. Both poses are assumed well formed (start strictly below end,
the Pose invariant). -/
theorem c4_blocking_characterisation (db : List DbItem) (target b : DbItem)
    (cid : String) (tp bp : Position)
    (hcid : target.containerId = some cid) (hcid2 : cid ≠ "")
    (htp : target.position = some tp) (hbp : b.position = some bp)
    (htw : nondegenerateWH tp) (hbw : nondegenerateWH bp) :
    (b ∈ findBlockingItems db target ↔
      (b ∈ db ∧ b.containerId = target.containerId ∧ b.itemId ≠ target.itemId ∧
        b.isWaste = false ∧ bp.startCoordinates.depth < tp.startCoordinates.depth ∧
        projOverlapInteriorNonempty bp tp)) ∧
    (∀ x ∈ findBlockingItems db target, x.isWaste = false) := by
  have hform : findBlockingItems db target =
      pySort depthPriorityLe
        ((db.filter fun i =>
            i.containerId == some cid && !(i.itemId == target.itemId) &&
              i.isWaste == false).filter fun i =>
          match i.position with
          | none => false
          | some p =>
            decide (p.startCoordinates.depth < tp.startCoordinates.depth) &&
              checkPerpendicularOverlap tp.startCoordinates tp.endCoordinates
                p.startCoordinates p.endCoordinates) := by
    simp only [findBlockingItems, hcid, htp]
    rw [if_neg hcid2]
  constructor
  · rw [hform, mem_pySort, List.mem_filter, List.mem_filter, hcid]
    simp only [hbp, Bool.and_eq_true, beq_iff_eq, Bool.not_eq_true', beq_eq_false_iff_ne,
      ne_eq, decide_eq_true_eq, checkPerpendicularOverlap_iff tp bp htw hbw]
    tauto
  · intro x hx
    rw [hform, mem_pySort, List.mem_filter, List.mem_filter] at hx
    have hcond := hx.1.2
    simp only [Bool.and_eq_true, beq_iff_eq] at hcond
    exact hcond.2

theorem c4_blocking_characterisation_witness :
    targetT.containerId = some "cA" ∧ ("cA" : String) ≠ "" ∧
    targetT.position = some ⟨⟨0, 2, 0⟩, ⟨2, 4, 2⟩⟩ ∧
    blockerB1.position = some ⟨⟨0, 0, 0⟩, ⟨2, 1, 2⟩⟩ ∧
    nondegenerateWH ⟨⟨0, 2, 0⟩, ⟨2, 4, 2⟩⟩ ∧ nondegenerateWH ⟨⟨0, 0, 0⟩, ⟨2, 1, 2⟩⟩ ∧
    ((blockerB1 ∈ findBlockingItems searchDb targetT ↔
      (blockerB1 ∈ searchDb ∧ blockerB1.containerId = targetT.containerId ∧
        blockerB1.itemId ≠ targetT.itemId ∧ blockerB1.isWaste = false ∧
        ((⟨⟨0, 0, 0⟩, ⟨2, 1, 2⟩⟩ : Position)).startCoordinates.depth <
          ((⟨⟨0, 2, 0⟩, ⟨2, 4, 2⟩⟩ : Position)).startCoordinates.depth ∧
        projOverlapInteriorNonempty ⟨⟨0, 0, 0⟩, ⟨2, 1, 2⟩⟩ ⟨⟨0, 2, 0⟩, ⟨2, 4, 2⟩⟩)) ∧
      ∀ x ∈ findBlockingItems searchDb targetT, x.isWaste = false) :=
  ⟨rfl, by decide, rfl, rfl, ⟨by decide, by decide⟩, ⟨by decide, by decide⟩,
    c4_blocking_characterisation searchDb targetT blockerB1 "cA"
      ⟨⟨0, 2, 0⟩, ⟨2, 4, 2⟩⟩ ⟨⟨0, 0, 0⟩, ⟨2, 1, 2⟩⟩ rfl (by decide) rfl rfl
      ⟨by decide, by decide⟩ ⟨by decide, by decide⟩⟩

/-- C3 counterexample: blocker B1 sits closer to the opening (depth 0) than B2
(depth 1), so the claimed (start depth, priority) order must remove B1 first;
the code re-sorts by priority alone (search.py line 95) and removes B2 (its
priority 1 is below the 5 of B1) first. -/
theorem c3_step_order_counterexample :
    calculateRetrievalSteps searchDb targetT =
      [⟨1, "remove", "B2", "BlockerTwo"⟩, ⟨2, "remove", "B1", "BlockerOne"⟩,
        ⟨3, "retrieve", "T", "Target"⟩, ⟨4, "place", "B1", "BlockerOne"⟩,
        ⟨5, "place", "B2", "BlockerTwo"⟩] ∧
    blockerDepth blockerB1 < blockerDepth blockerB2 ∧
    blockerB2.priority < blockerB1.priority ∧
    calculateRetrievalSteps searchDb targetT ≠
      [⟨1, "remove", "B1", "BlockerOne"⟩, ⟨2, "remove", "B2", "BlockerTwo"⟩,
        ⟨3, "retrieve", "T", "Target"⟩, ⟨4, "place", "B2", "BlockerTwo"⟩,
        ⟨5, "place", "B1", "BlockerOne"⟩] :=
  ⟨rfl, by decide, by decide, by decide⟩

/-- C3 as amended: with no placement the step list is empty; with a placement
there is a list bs - a permutation of the blocker set ordered by (priority
ascending, start depth ascending) - such that the steps are one remove per
element of bs in order, one retrieve for the target, and one place per
element of bs in reverse order, numbered consecutively from 1. -/
theorem c3_retrieval_step_structure :
    (∀ (db : List DbItem) (target : DbItem), target.position = none →
      calculateRetrievalSteps db target = []) ∧
    (∀ (db : List DbItem) (target : DbItem) (cid : String) (tp : Position),
      target.containerId = some cid → cid ≠ "" → target.position = some tp →
      ∃ bs : List DbItem,
        bs.Perm (findBlockingItems db target) ∧
        bs.Pairwise (fun a b => a.priority ≤ b.priority ∧
          (a.priority = b.priority → blockerDepth a ≤ blockerDepth b)) ∧
        calculateRetrievalSteps db target =
          numberSteps 1 ((bs.map fun x => ("remove", x.itemId, x.name)) ++
            [("retrieve", target.itemId, target.name)] ++
            (bs.reverse.map fun x => ("place", x.itemId, x.name))) ∧
        (calculateRetrievalSteps db target).map RetrievalStep.step =
          (List.range (bs.length + 1 + bs.length)).map fun (n : Nat) => 1 + (n : Int)) := by
  constructor
  · intro db target h
    rcases hc : target.containerId with _ | cid <;>
      simp [calculateRetrievalSteps, hc, h]
  · intro db target cid tp hcid hcid2 htp
    refine ⟨pySort priorityLe (findBlockingItems db target), ?_, ?_, ?_, ?_⟩
    · exact pySort_perm priorityLe (findBlockingItems db target)
    · -- the blocker list of the source is sorted by (depth, priority); the
      -- stable re-sort by priority therefore orders ties by depth
      have hbase : (findBlockingItems db target).Pairwise
          (fun a b => a.priority = b.priority → blockerDepth a ≤ blockerDepth b) := by
        have hl : findBlockingItems db target =
            pySort depthPriorityLe
              ((db.filter fun i =>
                  i.containerId == some cid && !(i.itemId == target.itemId) &&
                    i.isWaste == false).filter fun i =>
                match i.position with
                | none => false
                | some p =>
                  decide (p.startCoordinates.depth < tp.startCoordinates.depth) &&
                    checkPerpendicularOverlap tp.startCoordinates tp.endCoordinates
                      p.startCoordinates p.endCoordinates) := by
          simp only [findBlockingItems, hcid, htp]
          rw [if_neg hcid2]
        have hsorted : (findBlockingItems db target).Pairwise
            (fun a b => depthPriorityLe a b = true ∧
              (depthPriorityLe b a = true → True)) := by
          rw [hl]
          exact pySort_pairwise_stable depthPriorityLe (fun _ _ => True)
            depthPriorityLe_total depthPriorityLe_trans _ (pairwise_trivial _)
        refine hsorted.imp ?_
        intro a b hab heq
        have h1 := hab.1
        simp only [depthPriorityLe] at h1
        split_ifs at h1 <;> omega
      have hstable := pySort_pairwise_stable priorityLe
        (fun a b => a.priority = b.priority → blockerDepth a ≤ blockerDepth b)
        priorityLe_total priorityLe_trans (findBlockingItems db target) hbase
      refine hstable.imp ?_
      intro a b hab
      have h1 := hab.1
      simp only [priorityLe, decide_eq_true_eq] at h1 hab
      exact ⟨h1, fun heq => hab.2 (by omega) heq⟩
    · simp only [calculateRetrievalSteps, hcid, htp]
      rw [if_neg hcid2]
    · have hs : calculateRetrievalSteps db target =
          numberSteps 1 (((pySort priorityLe (findBlockingItems db target)).map
              fun x => ("remove", x.itemId, x.name)) ++
            [("retrieve", target.itemId, target.name)] ++
            ((pySort priorityLe (findBlockingItems db target)).reverse.map
              fun x => ("place", x.itemId, x.name))) := by
        simp only [calculateRetrievalSteps, hcid, htp]
        rw [if_neg hcid2]
      rw [hs, numberSteps_map_step]
      congr 2
      simp only [List.length_append, List.length_map, List.length_reverse,
        List.length_cons, List.length_nil]
      try omega

theorem c3_retrieval_step_structure_witness :
    ∃ bs : List DbItem,
      bs.Perm (findBlockingItems searchDb targetT) ∧
      bs.Pairwise (fun a b => a.priority ≤ b.priority ∧
        (a.priority = b.priority → blockerDepth a ≤ blockerDepth b)) ∧
      calculateRetrievalSteps searchDb targetT =
        numberSteps 1 ((bs.map fun x => ("remove", x.itemId, x.name)) ++
          [("retrieve", targetT.itemId, targetT.name)] ++
          (bs.reverse.map fun x => ("place", x.itemId, x.name))) ∧
      (calculateRetrievalSteps searchDb targetT).map RetrievalStep.step =
        (List.range (bs.length + 1 + bs.length)).map fun (n : Nat) => 1 + (n : Int) :=
  c3_retrieval_step_structure.2 searchDb targetT "cA" ⟨⟨0, 2, 0⟩, ⟨2, 4, 2⟩⟩ rfl
    (by decide) rfl

/-- C5: a successful Retrieve on a non-waste item carrying a usage limit (and
hence a remaining-uses value) lowers uses_remaining to max(0, old - 1), and
the new value is 0 exactly when the call flips is_waste to true. -/
theorem c5_retrieve_decrements_and_flags (item : DbItem) (lim u : Int)
    (hlim : item.usageLimit = some lim) (hu : item.usesRemaining = some u)
    (hw : item.isWaste = false) :
    ∃ item2 : DbItem, logRetrievalItem item = .ok item2 ∧
      item2.usesRemaining = some (max 0 (u - 1)) ∧
      (item2.usesRemaining = some 0 ↔ item2.isWaste = true) := by
  simp only [logRetrievalItem, hlim, hu]
  by_cases h : max 0 (u - 1) = 0
  · rw [if_pos h]
    exact ⟨_, rfl, by simp, by simp [h]⟩
  · rw [if_neg h]
    exact ⟨_, rfl, by simp, by simp [h, hw]⟩

theorem c5_retrieve_decrements_and_flags_witness :
    usageItem.usageLimit = some 3 ∧ usageItem.usesRemaining = some 1 ∧
    usageItem.isWaste = false ∧
    ∃ item2 : DbItem, logRetrievalItem usageItem = .ok item2 ∧
      item2.usesRemaining = some (max 0 (1 - 1)) ∧
      (item2.usesRemaining = some 0 ↔ item2.isWaste = true) :=
  ⟨rfl, rfl, rfl, c5_retrieve_decrements_and_flags usageItem 3 1 rfl rfl rfl⟩

theorem simulateUsageLoop_ne_invalidInput (cd : Int) (nd : Option Int) :
    ∀ (rs : List (Option String)) (store : List DbItem) (used : List UsedEntry)
      (dep : List DepletedEntry) (logs : List LogEntry),
      simulateUsageLoop nd cd rs store used dep logs ≠ .error .invalidInput := by
  intro rs
  induction rs with
  | nil => intro store used dep logs; simp [simulateUsageLoop]
  | cons r rest ih =>
    intro store used dep logs
    simp only [simulateUsageLoop]
    repeat' split
    all_goals first
      | exact ih _ _ _ _
      | simp

theorem simulateUsageLoop_ok_of_some (cd : Int) (n : Int) :
    ∀ (rs : List (Option String)) (store : List DbItem) (used : List UsedEntry)
      (dep : List DepletedEntry) (logs : List LogEntry),
      ∃ v, simulateUsageLoop (some n) cd rs store used dep logs = .ok v := by
  intro rs
  induction rs with
  | nil => intro store used dep logs; exact ⟨_, rfl⟩
  | cons r rest ih =>
    intro store used dep logs
    simp only [simulateUsageLoop]
    repeat' split
    all_goals exact ih _ _ _ _

/-- C6 counterexample: a request with both num_of_days and to_timestamp set is
not rejected - the call proceeds in num_of_days mode. -/
theorem c6_both_modes_counterexample :
    simulateTime 0 [] ⟨some 2, some 5, []⟩ = .ok ⟨2, ⟨[], [], []⟩, [], []⟩ ∧
    pyTruthyInt (some 2) = true ∧ ((some 5 : Option Int) ≠ none) :=
  ⟨rfl, rfl, by decide⟩

/-- C6 as amended: simulate raises its InvalidInput error exactly when
num_of_days is unset or zero (Python truthiness) and to_timestamp is unset;
in particular a request with both modes set proceeds, using num_of_days. -/
theorem c6_time_mode_validation (currentDate : Int) (store : List DbItem)
    (request : SimulationRequest) :
    simulateTime currentDate store request = .error .invalidInput ↔
      (pyTruthyInt request.numOfDays = false ∧ request.toTimestamp = none) := by
  constructor
  · intro h
    by_cases h1 : pyTruthyInt request.numOfDays = true
    · exfalso
      rcases hnd : request.numOfDays with _ | n
      · rw [hnd] at h1
        simp [pyTruthyInt] at h1
      · unfold simulateTime at h
        rw [if_pos h1, hnd] at h
        obtain ⟨v, hv⟩ := simulateUsageLoop_ok_of_some currentDate n
          request.itemsToBeUsedPerDay store [] [] []
        rw [hv] at h
        simp at h
    · have h1f : pyTruthyInt request.numOfDays = false := by
        simpa using h1
      rcases hts : request.toTimestamp with _ | ts
      · exact ⟨h1f, rfl⟩
      · exfalso
        unfold simulateTime at h
        rw [if_neg (by simp [h1f]), hts] at h
        rcases hloop : simulateUsageLoop request.numOfDays currentDate
            request.itemsToBeUsedPerDay store [] [] [] with e | v
        · rw [hloop] at h
          simp only [Except.error.injEq] at h
          exact simulateUsageLoop_ne_invalidInput currentDate request.numOfDays
            request.itemsToBeUsedPerDay store [] [] [] (by rw [hloop, h])
        · rw [hloop] at h
          simp at h
  · rintro ⟨h1, h2⟩
    unfold simulateTime
    rw [if_neg (by simp [h1]), h2]

/-- C7: in to_timestamp mode the usage loop reads total_uses from the unset
num_of_days and raises a TypeError on the subtraction, so the claimed
uses_remaining update never happens there; in num_of_days mode the update
matches the claim (new value max(0, u - min(N, u)) with min(N, u) retrieval
log entries and no waste flag while the value stays positive). -/
theorem c7_usage_modes :
    simulateTime 0 [simUsageItem] ⟨none, some 10, [some "s1"]⟩ = .error .typeError ∧
    simulateTime 0 [simUsageItem] ⟨some 3, none, [some "s1"]⟩ =
      .ok ⟨3, ⟨[⟨"s1", "SimItem", 2, 3⟩], [], []⟩,
        [{ simUsageItem with usesRemaining := some 2 }],
        [⟨"retrieval", "s1"⟩, ⟨"retrieval", "s1"⟩, ⟨"retrieval", "s1"⟩]⟩ ∧
    (2 : Int) = max 0 (5 - min 3 5) ∧ (3 : Int) = min 3 5 :=
  ⟨rfl, rfl, by decide, by decide⟩

/-- C8: the greedy selection and its stop rule match the claim on the spec
scenario (masses 5, 4, 2 under cap 8 select exactly the first item, and the
manifest total is 5), but a store whose waste includes an out-of-uses item
with no expiry date makes the manifest reason comparison raise a TypeError,
so the call returns no plan at all for such stores. -/
theorem c8_return_plan_behaviour :
    planWasteReturn 100 [wasteNoExpiry] returnRequest =
      .error "TypeError: NoneType not comparable with datetime" ∧
    wasteNoExpiry.isWaste = true ∧ wasteNoExpiry.expiryDate = none ∧
    wasteNoExpiry.mass + 0 ≤ returnRequest.maxWeight ∧
    planWasteReturn 100 [wasteW1, wasteW2, wasteW3] returnRequest =
      .ok ([⟨1, "w1", "WasteOne", some "cA", "undock1"⟩],
        [⟨1, "retrieve", "w1", "WasteOne"⟩],
        ⟨"undock1", 50, [⟨"w1", "WasteOne", "Expired"⟩], 1, 5⟩) ∧
    wasteW1.mass + wasteW2.mass > returnRequest.maxWeight ∧
    wasteW1.mass ≤ returnRequest.maxWeight :=
  ⟨rfl, rfl, rfl, by decide, rfl, by decide, by decide⟩

/-- C9: identify_waste_items only selects rows whose is_waste flag is false
and flags every selected row, so a second run on the resulting store reports
nothing and leaves every row unchanged. -/
theorem c9_waste_identify_idempotent (now : Int) (store : List DbItem) :
    identifyWasteItems now (identifyWasteItems now store).2 =
      ([], (identifyWasteItems now store).2) := by
  have hfalse : ∀ i ∈ (identifyWasteItems now store).2, wasteCondition now i = false := by
    intro i hi
    simp only [identifyWasteItems, List.mem_map] at hi
    obtain ⟨j, hj, rfl⟩ := hi
    by_cases h : wasteCondition now j = true
    · rw [if_pos h]
      simp [wasteCondition]
    · rw [if_neg h]
      simpa using h
  have h1 : ((identifyWasteItems now store).2).filter (wasteCondition now) = [] := by
    rw [List.filter_eq_nil_iff]
    intro i hi
    simp [hfalse i hi]
  have h2 : ((identifyWasteItems now store).2).map
      (fun i => if wasteCondition now i then { i with isWaste := true } else i) =
        (identifyWasteItems now store).2 := by
    have hid : ∀ i ∈ (identifyWasteItems now store).2,
        (if wasteCondition now i then { i with isWaste := true } else i) = id i :=
      fun i hi => by rw [if_neg (by simp [hfalse i hi])]; rfl
    rw [List.map_congr_left hid, List.map_id]
  conv_lhs => rw [identifyWasteItems]
  rw [h1, h2]
  rfl

/-- C10 counterexample: the stripped id of the row "-1" does not start with
the character 0, yet the stored id is "-01" - the zeros of Python zfill go
after the sign - while left-padding with zeros would give "0-1". -/
theorem c10_sign_counterexample :
    importItemId "-1" = "-01" ∧ specLeftPad3 (pyStrip "-1") = "0-1" ∧
    ("-01" : String) ≠ "0-1" :=
  ⟨rfl, rfl, by decide⟩

/-- C10 as amended: for a stripped id not starting with the character 0 and
with no leading sign, the stored id is the stripped string left-padded with
zeros to at least 3 characters; a stripped id with a leading + or - instead
has the zeros inserted after the sign character. -/
theorem c10_item_id_zero_fill :
    (∀ raw : String,
      pyStartsWithChar (pyStrip raw) '0' = false →
      pyStartsWithChar (pyStrip raw) '+' = false →
      pyStartsWithChar (pyStrip raw) '-' = false →
      importItemId raw = specLeftPad3 (pyStrip raw) ∧
        (importItemId raw).data.length = max 3 (pyStrip raw).data.length) ∧
    (∀ (raw : String) (c : Char) (cs : List Char),
      pyStartsWithChar (pyStrip raw) '0' = false →
      (pyStrip raw).data = c :: cs → (c = '+' ∨ c = '-') →
      importItemId raw =
        ⟨c :: (List.replicate (3 - (pyStrip raw).data.length) '0' ++ cs)⟩) := by
  constructor
  · intro raw h0 hplus hminus
    simp only [importItemId, h0, Bool.false_eq_true, if_false]
    by_cases hlen : 3 ≤ (pyStrip raw).data.length
    · have hzf : pyZfill (pyStrip raw) 3 = pyStrip raw := by
        rw [pyZfill, if_pos hlen]
      have hpad : specLeftPad3 (pyStrip raw) = pyStrip raw := by
        rw [specLeftPad3, Nat.sub_eq_zero_of_le hlen]
        simp
      rw [hzf, hpad]
      exact ⟨rfl, by omega⟩
    · rcases hdata : (pyStrip raw).data with _ | ⟨c, cs⟩
      · have hzf : pyZfill (pyStrip raw) 3 = ⟨List.replicate 3 '0'⟩ := by
          rw [pyZfill, if_neg hlen, hdata]
        have hpad : specLeftPad3 (pyStrip raw) = ⟨List.replicate 3 '0'⟩ := by
          rw [specLeftPad3, hdata]
          simp
        rw [hzf, hpad]
        exact ⟨rfl, by simp [hdata]⟩
      · have hc1 : ¬(c = '+') := by
          simp only [pyStartsWithChar, hdata] at hplus
          simpa using hplus
        have hc2 : ¬(c = '-') := by
          simp only [pyStartsWithChar, hdata] at hminus
          simpa using hminus
        have hzf : pyZfill (pyStrip raw) 3 =
            ⟨List.replicate (3 - (pyStrip raw).data.length) '0' ++ (pyStrip raw).data⟩ := by
          rw [pyZfill, if_neg hlen, hdata]
          simp only [hc1, hc2, decide_False, Bool.or_self, Bool.false_eq_true, if_false]
        rw [hzf, specLeftPad3]
        refine ⟨rfl, ?_⟩
        simp only [hdata, List.length_append, List.length_replicate, List.length_cons]
        omega
  · intro raw c cs h0 hdata hsign
    simp only [importItemId, h0, Bool.false_eq_true, if_false]
    by_cases hlen : 3 ≤ (pyStrip raw).data.length
    · rw [pyZfill, if_pos hlen]
      have h0l : 3 - (pyStrip raw).data.length = 0 := by omega
      rw [h0l]
      simp only [List.replicate_zero, List.nil_append]
      exact String.ext hdata
    · have hc : (decide (c = '+') || decide (c = '-')) = true := by
        rcases hsign with rfl | rfl <;> simp
      rw [pyZfill, if_neg hlen, hdata]
      simp [hc]

theorem c10_item_id_zero_fill_witness :
    pyStartsWithChar (pyStrip "1") '0' = false ∧
    pyStartsWithChar (pyStrip "1") '+' = false ∧
    pyStartsWithChar (pyStrip "1") '-' = false ∧
    (importItemId "1" = specLeftPad3 (pyStrip "1") ∧
      (importItemId "1").data.length = max 3 (pyStrip "1").data.length) ∧
    importItemId "1" = "001" :=
  ⟨rfl, rfl, rfl, c10_item_id_zero_fill.1 "1" rfl rfl rfl, rfl⟩
